import Mathlib

/-!
# Shallow embedding of `crimes_grabber.py`

This file embeds the ETL script `crimes_grabber.py` (fetch FBI crime data,
persist to three PostgreSQL tables, render a chart) and proves the spec's
claims about it.

Modelling conventions:
* A decoded JSON scalar is `JVal`; a record (Python flat dict) is an
  association list `Rec := List (String × JVal)`; Python dict assignment is
  `setKey` and dict lookup is `getKey?`.
* An HTTP response is carried as its status code together with the decoded
  body relevant to the code path (`ApiResponse.data?` models the `data` list
  of the per-agency / state endpoints; `none` means `json.loads` or the
  `['data']` lookup would raise). `DirResponse.body?` plays the same role for
  the directory endpoint.
* Exceptions are `Except String`; Python `None` is `Option.none`.
* The database is an association list from table names to row lists;
  `to_sql(..., if_exists='replace')` is `dbWrite` (replace semantics).
  `pandas`/SQLAlchemy internals are external collaborators, so `dbWrite` is
  total, and `pd.DataFrame(None)` is the empty row list.
* The thread pool (`max_workers=40`) settles all futures before the flatten
  step (the `with` block joins the pool), so each future is modelled as the
  already-computed result of `get_agency_crimes`; `as_completed` order is
  modelled as submission order — no claim below depends on inter-agency
  order.
* Log lines written via `logging` are `LogEntry` values (timestamps, being
  wall-clock real time, are abstracted away); lines written via `print` are
  kept as literal strings, since the claims quote their contents.
-/

/-- A decoded scalar JSON value, as stored in one field of a flat record. -/
inductive JVal where
  | jnull : JVal
  | jbool : Bool → JVal
  | jnum : Int → JVal
  | jstr : String → JVal
deriving Repr, DecidableEq

/-- Python `str()` / f-string rendering of a scalar, used when a value is
interpolated into a URL. -/
def JVal.pyStr : JVal → String
  | .jnull => "None"
  | .jbool b => if b then "True" else "False"
  | .jnum n => toString n
  | .jstr s => s

/-- A flat JSON record (a Python dict with scalar values). -/
abbrev Rec := List (String × JVal)

/-- Python dict assignment `d[k] = v`: overwrite the entry for `k` in place
if present, otherwise append it. -/
def setKey {α : Type} : List (String × α) → String → α → List (String × α)
  | [], k, v => [(k, v)]
  | p :: rest, k, v => if p.1 = k then (k, v) :: rest else p :: setKey rest k v

/-- Python dict lookup `d.get(k)`: first entry with key `k`, if any. -/
def getKey? {α : Type} : List (String × α) → String → Option α
  | [], _ => none
  | p :: rest, k => if p.1 = k then some p.2 else getKey? rest k

/-- Response to a per-agency or state arrest call: HTTP status plus the
decoded `data` list of the JSON body. `data? = none` models a body on which
`json.loads` or the `['data']` access would raise. -/
structure ApiResponse where
  status_code : Nat
  data? : Option (List Rec)

/-- Response to the agency-directory call: HTTP status plus the decoded JSON
list. `body? = none` models a body that is not valid JSON. -/
structure DirResponse where
  status_code : Nat
  body? : Option (List Rec)

/-- The database configuration record read by `decouple.config`. -/
structure DBConfig where
  host : String
  user : String
  password : String
  database : String

/-- Embeds `connect_db` (line 55): the SQLAlchemy URL the source builds. Note that
the configured `host` value is interpolated into the port position, after
the literal `localhost:`. The engine itself is an external collaborator; its
identity is the URL. -/
def connect_db (c : DBConfig) : String :=
  "postgresql://" ++ c.user ++ ":" ++ c.password ++ "@localhost:" ++ c.host
    ++ "/" ++ c.database

/-- URL of the per-agency arrest endpoint (line 83). The agency code is a
decoded JSON value interpolated by f-string. -/
def agencyUrl (agency_code : JVal) (apiKey : String) : String :=
  "https://api.usa.gov/crime/fbi/cde/arrest/agency/" ++ agency_code.pyStr
    ++ "/all?from=2000&to=2024&API_KEY=" ++ apiKey

/-- URL of the state arrest endpoint (line 100). -/
def stateUrl (apiKey : String) : String :=
  "https://api.usa.gov/crime/fbi/cde/arrest/state/CO/all?from=2000&to=2024&API_KEY="
    ++ apiKey

/-- URL of the agency directory endpoint (line 70). -/
def directoryUrl (apiKey : String) : String :=
  "https://api.usa.gov/crime/fbi/cde/agency/byStateAbbr/CO?API_KEY=" ++ apiKey

/-- Embeds `get_agency_crimes` (lines 82-95). On a 200 status it decodes the body,
takes the `data` list, and destructively sets `['Agency'] = agency_code` on
every record before returning the list. On any other status it prints the
status and URL and falls off the end, returning Python `None`. The first
component is the returned value (or the raised exception), the second the
lines printed. -/
def get_agency_crimes (apiKey : String) (agency_code : JVal)
    (resp : ApiResponse) : Except String (Option (List Rec)) × List String :=
  if resp.status_code = 200 then
    match resp.data? with
    | some crime_data =>
        (.ok (some (crime_data.map (fun d => setKey d "Agency" agency_code))), [])
    | none => (.error "agency body decode error", [])
  else
    (.ok none,
      ["Got response status code: " ++ toString resp.status_code
        ++ " for url:" ++ agencyUrl agency_code apiKey])

/-- Embeds `get_state_crimes` (lines 99-109). Same non-200 policy as
`get_agency_crimes` but no identifier injection (and a space after `url:` in
the printed message, as in the source). -/
def get_state_crimes (apiKey : String) (resp : ApiResponse) :
    Except String (Option (List Rec)) × List String :=
  if resp.status_code = 200 then
    match resp.data? with
    | some crime_data => (.ok (some crime_data), [])
    | none => (.error "state body decode error", [])
  else
    (.ok none,
      ["Got response status code: " ++ toString resp.status_code
        ++ " for url: " ++ stateUrl apiKey])

/-- The list comprehension `[agency_dict['ori'] for agency_dict in json_data]`
(line 75): the `'ori'` value of each record in order, raising `KeyError` at
the first record lacking the key. -/
def extractOris : List Rec → Except String (List JVal)
  | [] => .ok []
  | r :: rs =>
      match getKey? r "ori" with
      | none => .error "KeyError: ori"
      | some v =>
          match extractOris rs with
          | .error e => .error e
          | .ok vs => .ok (v :: vs)

/-- Embeds `get_agency_code` (lines 65-78). The response status is never examined:
the body is decoded with `json.loads` (raising if not valid JSON) and the
pair (decoded list, list of `'ori'` values) is returned. -/
def get_agency_code (resp : DirResponse) :
    Except String (List Rec × List JVal) :=
  match resp.body? with
  | none => .error "JSONDecodeError"
  | some json_data =>
      match extractOris json_data with
      | .error e => .error e
      | .ok agency_list => .ok (json_data, agency_list)

/-- Chart rendering, `plot_scatter` body (lines 116-141). The loop accesses
`df[x_values]` and `df[col]` for each requested column; a pandas `DataFrame`
built from a list of records has a column exactly when some record carries
that key, and accessing a missing column raises `KeyError`. The matplotlib
calls themselves are an external collaborator and contribute no failure of
their own here. -/
def getCol (df : List Rec) (c : String) :
    Except String (List (Option JVal)) :=
  if df.any (fun r => (getKey? r c).isSome) then
    .ok (df.map (fun r => getKey? r c))
  else
    .error ("KeyError: " ++ c)

/-- The body of the `try` block of `plot_scatter`: plot each requested
column against the x column, raising at the first missing column. -/
def plotBody (df : List Rec) (x_values : String) :
    List String → Except String Unit
  | [] => .ok ()
  | c :: cs =>
      match getCol df x_values with
      | .error e => .error e
      | .ok _ =>
          match getCol df c with
          | .error e => .error e
          | .ok _ => plotBody df x_values cs

/-- One line of the run's log file (timestamps abstracted away). -/
inductive LogEntry where
  | logCreated : LogEntry
  | connected : LogEntry
  | gotStateCrimes : LogEntry
  | gotAgencyInfo : LogEntry
  | gotAgencyCrimes : LogEntry
  | plotted : LogEntry
  | plotError : String → LogEntry
  | mainError : String → LogEntry
  | finished : LogEntry
deriving Repr, DecidableEq

/-- Embeds `plot_scatter` (lines 114-144): the whole body is wrapped in
`try/except Exception`, which logs the failure; the function never raises
and returns `None` either way, so its observable effect is its log lines. -/
def plot_scatter (df : List Rec) (x_values : String)
    (cols : List String) : List LogEntry :=
  match plotBody df x_values cols with
  | .ok _ => [.plotted]
  | .error e => [.plotError e]

/-- The `columns_to_plot` constant (line 178). -/
def columns_to_plot : List String := ["Rape", "Aggravated Assault"]

/-- The relational store: table name to list of rows. -/
abbrev Database := List (String × List Rec)

/-- Embeds `DataFrame.to_sql(name, engine, if_exists='replace')`: replace the
table's rows wholesale. The store engine is an external collaborator, so the
write is total (it succeeds also for an empty row list). -/
def dbWrite (db : Database) (name : String) (rows : List Rec) : Database :=
  setKey db name rows

/-- Read a table's rows; `none` when no table of that name exists. -/
def dbRead (db : Database) (name : String) : Option (List Rec) :=
  getKey? db name

/-- The environment of one run: the responses the three endpoint shapes
would deliver during it. -/
structure Env where
  state_resp : ApiResponse
  dir_resp : DirResponse
  agency_resp : JVal → ApiResponse

/-- The futures submitted to the `ThreadPoolExecutor` (lines 166-168): one
`get_agency_crimes` call per agency code, all settled before the pool's
`with` block exits. -/
def agencyFutures (apiKey : String) (env : Env) (codes : List JVal) :
    List (Except String (Option (List Rec)) × List String) :=
  codes.map (fun c => get_agency_crimes apiKey c (env.agency_resp c))

/-- The flatten step (lines 171-172):
`[crime for future in as_completed(futures) for crime in future.result()]`.
`future.result()` re-raises an exception captured in the worker; iterating a
future whose function returned Python `None` (the non-200 path of
`get_agency_crimes`) raises `TypeError`. -/
def flattenFutures :
    List (Except String (Option (List Rec))) → Except String (List Rec)
  | [] => .ok []
  | f :: fs =>
      match f with
      | .error e => .error e
      | .ok none => .error "TypeError: NoneType is not iterable"
      | .ok (some xs) =>
          match flattenFutures fs with
          | .error e => .error e
          | .ok rest => .ok (xs ++ rest)

instance {e a : Type} [DecidableEq e] [DecidableEq a] :
    DecidableEq (Except e a) := fun x y =>
  match x, y with
  | .ok v, .ok w =>
      if h : v = w then isTrue (by rw [h])
      else isFalse (fun hh => h (by injection hh))
  | .error u, .error t =>
      if h : u = t then isTrue (by rw [h])
      else isFalse (fun hh => h (by injection hh))
  | .ok _, .error _ => isFalse (fun hh => by injection hh)
  | .error _, .ok _ => isFalse (fun hh => by injection hh)

/-- Mutable state threaded through the body of `main`'s `try` block. -/
structure MState where
  db : Database
  log : List LogEntry
  printed : List String
  fanout : Nat
deriving Repr, DecidableEq

/-- The body of `main`'s `try` block inside the `with DatabaseConnection()`
scope (lines 152-179): fetch and persist state crimes, the agency
directory, and the fanned-out agency crimes, then plot. The second
component is `.ok ()` on normal completion and the escaping exception
otherwise. -/
def tryBody (apiKey : String) (env : Env) (s0 : MState) :
    MState × Except String Unit :=
  let r1 := get_state_crimes apiKey env.state_resp
  let s0 : MState := { s0 with printed := s0.printed ++ r1.2 }
  match r1.1 with
  | .error e => (s0, .error e)
  | .ok state_crimes =>
      let df := state_crimes.getD []
      let s1 : MState :=
        { s0 with db := dbWrite s0.db "state_crimes" df,
                  log := s0.log ++ [.gotStateCrimes] }
      match get_agency_code env.dir_resp with
      | .error e => (s1, .error e)
      | .ok (agency_data, agency_codes) =>
          let s2 : MState :=
            { s1 with db := dbWrite s1.db "agency_info" agency_data,
                      log := s1.log ++ [.gotAgencyInfo] }
          let futures := agencyFutures apiKey env agency_codes
          let s3 : MState :=
            { s2 with printed := s2.printed ++ (futures.map Prod.snd).flatten,
                      fanout := s2.fanout + futures.length }
          match flattenFutures (futures.map Prod.fst) with
          | .error e => (s3, .error e)
          | .ok agency_crimes =>
              let s4 : MState :=
                { s3 with db := dbWrite s3.db "agency_crimes" agency_crimes,
                          log := s3.log ++ [.gotAgencyCrimes] }
              let s5 : MState :=
                { s4 with log := s4.log ++ plot_scatter df "data_year" columns_to_plot }
              (s5, .ok ())

/-- The observable result of one invocation of `main`. -/
structure RunResult where
  db : Database
  log : List LogEntry
  printed : List String
  fanout : Nat
  disposed : Bool
  outcome : Except String Unit
deriving Repr, DecidableEq

/-- Embeds `main` (lines 148-187). `setup_logging` and `connect_db` write their log
lines (`create_engine` is lazy and does not raise for the configured string
values). On an exception escaping the `with` block, `DatabaseConnection.__exit__`
disposes the engine, the `except` arm logs and prints the message and
re-raises, and the `finally` arm always logs the finishing line last. -/
def crimesMain (apiKey : String) (env : Env) (db0 : Database) : RunResult :=
  let s0 : MState := ⟨db0, [.logCreated, .connected], [], 0⟩
  let r := tryBody apiKey env s0
  match r.2 with
  | .ok _ =>
      ⟨r.1.db, r.1.log ++ [.finished], r.1.printed, r.1.fanout, true, .ok ()⟩
  | .error e =>
      ⟨r.1.db, r.1.log ++ [.mainError e, .finished],
        r.1.printed ++ ["An error occurred in the main function: " ++ e],
        r.1.fanout, true, .error e⟩

/-- The rows produced by the run's state fetch: the `data` list on a 200
response, nothing on the non-200 (Python `None`) path, irrelevant default on
the raising path. -/
def fetchedStateRows (apiKey : String) (env : Env) : List Rec :=
  match (get_state_crimes apiKey env.state_resp).1 with
  | .ok o => o.getD []
  | .error _ => []

/-- The rows produced by the run's directory fetch. -/
def fetchedDirRows (env : Env) : List Rec :=
  match get_agency_code env.dir_resp with
  | .ok p => p.1
  | .error _ => []

/-- The agency codes produced by the run's directory fetch. -/
def fetchedCodes (env : Env) : List JVal :=
  match get_agency_code env.dir_resp with
  | .ok p => p.2
  | .error _ => []

/-- The flattened agency-crimes rows the run's fan-out produces (when the
flatten step does not raise). -/
def fetchedAgencyRows (apiKey : String) (env : Env) : List Rec :=
  match flattenFutures ((agencyFutures apiKey env (fetchedCodes env)).map Prod.fst) with
  | .ok rows => rows
  | .error _ => []

/-- Length of the result list `get_agency_crimes` delivers for one agency
(zero when it delivers no list). -/
def agencyResultLen (apiKey : String) (env : Env) (c : JVal) : Nat :=
  match (get_agency_crimes apiKey c (env.agency_resp c)).1 with
  | .ok (some xs) => xs.length
  | _ => 0

/-- Sum of per-agency result-list lengths over exactly the agencies whose
fetch returned HTTP 200. -/
def sum200Lengths (apiKey : String) (env : Env) (codes : List JVal) : Nat :=
  ((codes.filter (fun c => (env.agency_resp c).status_code == 200)).map
    (agencyResultLen apiKey env)).sum

/-- The state-fetch stage does not raise (it raises only when a 200 body
fails to decode). -/
def stateFetchOk (env : Env) : Prop :=
  ¬(env.state_resp.status_code = 200 ∧ env.state_resp.data? = none)

/-- The directory-fetch stage does not raise. -/
def dirFetchOk (env : Env) : Prop :=
  ∃ p, get_agency_code env.dir_resp = .ok p

/-- The flatten step over the settled futures does not raise. -/
def fanoutOk (apiKey : String) (env : Env) : Prop :=
  ∃ rows,
    flattenFutures ((agencyFutures apiKey env (fetchedCodes env)).map Prod.fst)
      = .ok rows

/-! ## Concrete run environments used at evaluation points -/

/-- Scenario environment of C1: directory `["CO001", "CO002"]`, one record
returned for CO001, a 404 for CO002. -/
def C1env : Env where
  state_resp := ⟨200, some []⟩
  dir_resp := ⟨200, some [[("ori", .jstr "CO001")], [("ori", .jstr "CO002")]]⟩
  agency_resp := fun c =>
    if c = .jstr "CO001" then ⟨200, some [[("Burglary", .jnum 1)]]⟩
    else ⟨404, none⟩

/-- A run environment whose state fetch yields two rows and whose directory
is empty. -/
def C4envA : Env where
  state_resp := ⟨200, some [[("data_year", .jnum 2000)],
                            [("data_year", .jnum 2001)]]⟩
  dir_resp := ⟨200, some []⟩
  agency_resp := fun _ => ⟨404, none⟩

/-- A run environment whose state fetch yields one row and whose directory
is empty. -/
def C4envB : Env where
  state_resp := ⟨200, some [[("data_year", .jnum 2002)]]⟩
  dir_resp := ⟨200, some []⟩
  agency_resp := fun _ => ⟨404, none⟩

/-- A run environment with two agencies, both returning 200 with one and
two records respectively. -/
def C5env : Env where
  state_resp := ⟨200, some [[("data_year", .jnum 2000)]]⟩
  dir_resp := ⟨200, some [[("ori", .jstr "CO001")], [("ori", .jstr "CO002")]]⟩
  agency_resp := fun c =>
    if c = .jstr "CO001" then ⟨200, some [[("Theft", .jnum 1)]]⟩
    else ⟨200, some [[("Theft", .jnum 2)], [("Theft", .jnum 3)]]⟩

/-- A run environment whose directory response is an empty JSON list. -/
def C6env : Env where
  state_resp := ⟨200, some [[("data_year", .jnum 2000)]]⟩
  dir_resp := ⟨200, some []⟩
  agency_resp := fun _ => ⟨404, none⟩

/-- A run environment whose directory body is not valid JSON, so the
directory stage raises. -/
def C7env : Env where
  state_resp := ⟨404, none⟩
  dir_resp := ⟨200, none⟩
  agency_resp := fun _ => ⟨404, none⟩

/-- A pre-existing database with an old `agency_crimes` table. -/
def C7db : Database := [("agency_crimes", [[("old", .jnum 1)]])]

/-- A run environment whose state table has a `data_year` column but no
`Rape` column, so the chart renderer's body raises `KeyError`. -/
def C8env : Env where
  state_resp := ⟨200, some [[("data_year", .jnum 2000)]]⟩
  dir_resp := ⟨200, some []⟩
  agency_resp := fun _ => ⟨404, none⟩


/-! ## Helper lemmas -/

theorem getKey_setKey_self {α : Type} (l : List (String × α)) (k : String)
    (v : α) : getKey? (setKey l k v) k = some v := by
  induction l with
  | nil => simp [setKey, getKey?]
  | cons p rest ih =>
      by_cases h : p.1 = k
      · simp [setKey, getKey?, h]
      · simp [setKey, getKey?, h, ih]

theorem getKey_setKey_ne {α : Type} (l : List (String × α)) (k m : String)
    (v : α) (h : k ≠ m) : getKey? (setKey l k v) m = getKey? l m := by
  induction l with
  | nil => simp [setKey, getKey?, h]
  | cons p rest ih =>
      by_cases hp : p.1 = k
      · subst hp
        simp [setKey, getKey?, h]
      · simp [setKey, getKey?, hp, ih]

theorem dbRead_dbWrite_self (db : Database) (n : String) (rows : List Rec) :
    dbRead (dbWrite db n rows) n = some rows :=
  getKey_setKey_self db n rows

theorem dbRead_dbWrite_ne (db : Database) (n m : String) (rows : List Rec)
    (h : n ≠ m) : dbRead (dbWrite db n rows) m = dbRead db m :=
  getKey_setKey_ne db n m rows h

theorem get_agency_crimes_of_200 (apiKey : String) (c : JVal)
    (resp : ApiResponse) (d : List Rec) (hs : resp.status_code = 200)
    (hd : resp.data? = some d) :
    get_agency_crimes apiKey c resp
      = (.ok (some (d.map (fun r => setKey r "Agency" c))), []) := by
  simp [get_agency_crimes, hs, hd]

theorem get_agency_crimes_not200 (apiKey : String) (c : JVal)
    (resp : ApiResponse) (hs : resp.status_code ≠ 200) :
    get_agency_crimes apiKey c resp
      = (.ok none,
          ["Got response status code: " ++ toString resp.status_code
            ++ " for url:" ++ agencyUrl c apiKey]) := by
  simp [get_agency_crimes, hs]

theorem get_agency_crimes_status_of_ok_some (apiKey : String) (c : JVal)
    (resp : ApiResponse) (xs : List Rec)
    (h : (get_agency_crimes apiKey c resp).1 = .ok (some xs)) :
    resp.status_code = 200 := by
  by_cases hs : resp.status_code = 200
  · exact hs
  · simp [get_agency_crimes, hs] at h

theorem flattenFutures_ok_mem
    (fs : List (Except String (Option (List Rec)))) (rows : List Rec)
    (h : flattenFutures fs = .ok rows) :
    ∀ f ∈ fs, ∃ xs, f = .ok (some xs) := by
  induction fs generalizing rows with
  | nil => simp
  | cons f fs ih =>
      rcases f with e | o
      · simp [flattenFutures] at h
      · rcases o with _ | xs
        · simp [flattenFutures] at h
        · rcases hf : flattenFutures fs with e | rest
          · rw [flattenFutures, hf] at h
            exact absurd h (by simp)
          · intro g hg
            rcases List.mem_cons.mp hg with hg | hg
            · exact ⟨xs, hg⟩
            · exact ih rest hf g hg

theorem flattenFutures_ok_length
    (fs : List (Except String (Option (List Rec)))) (rows : List Rec)
    (h : flattenFutures fs = .ok rows) :
    rows.length
      = (fs.map (fun f =>
          match f with | .ok (some xs) => xs.length | _ => 0)).sum := by
  induction fs generalizing rows with
  | nil =>
      simp [flattenFutures] at h
      simp [h]
  | cons f fs ih =>
      rcases f with e | o
      · simp [flattenFutures] at h
      · rcases o with _ | xs
        · simp [flattenFutures] at h
        · rcases hf : flattenFutures fs with e | rest
          · rw [flattenFutures, hf] at h
            exact absurd h (by simp)
          · rw [flattenFutures, hf] at h
            have hr : rows = xs ++ rest := by
              cases h
              rfl
            subst hr
            simp [ih rest hf]

theorem tryBody_eq_ok (apiKey : String) (env : Env) (s0 : MState)
    (st : Option (List Rec)) (ps : List String) (ad : List Rec)
    (codes : List JVal) (rows : List Rec)
    (hst : get_state_crimes apiKey env.state_resp = (.ok st, ps))
    (hdir : get_agency_code env.dir_resp = .ok (ad, codes))
    (hflat : flattenFutures ((agencyFutures apiKey env codes).map Prod.fst)
      = .ok rows) :
    tryBody apiKey env s0 =
      ({ db := dbWrite (dbWrite (dbWrite s0.db "state_crimes" (st.getD []))
                  "agency_info" ad) "agency_crimes" rows,
         log := s0.log ++ [.gotStateCrimes, .gotAgencyInfo, .gotAgencyCrimes]
                  ++ plot_scatter (st.getD []) "data_year" columns_to_plot,
         printed := s0.printed ++ ps
                  ++ ((agencyFutures apiKey env codes).map Prod.snd).flatten,
         fanout := s0.fanout + (agencyFutures apiKey env codes).length },
        .ok ()) := by
  simp [tryBody, hst, hdir, hflat]

theorem tryBody_eq_errState (apiKey : String) (env : Env) (s0 : MState)
    (e : String) (ps : List String)
    (hst : get_state_crimes apiKey env.state_resp = (.error e, ps)) :
    tryBody apiKey env s0
      = ({ s0 with printed := s0.printed ++ ps }, .error e) := by
  simp [tryBody, hst]

theorem tryBody_eq_errDir (apiKey : String) (env : Env) (s0 : MState)
    (st : Option (List Rec)) (ps : List String) (e : String)
    (hst : get_state_crimes apiKey env.state_resp = (.ok st, ps))
    (hdir : get_agency_code env.dir_resp = .error e) :
    tryBody apiKey env s0 =
      ({ db := dbWrite s0.db "state_crimes" (st.getD []),
         log := s0.log ++ [.gotStateCrimes],
         printed := s0.printed ++ ps,
         fanout := s0.fanout }, .error e) := by
  simp [tryBody, hst, hdir]

theorem tryBody_eq_errFlat (apiKey : String) (env : Env) (s0 : MState)
    (st : Option (List Rec)) (ps : List String) (ad : List Rec)
    (codes : List JVal) (e : String)
    (hst : get_state_crimes apiKey env.state_resp = (.ok st, ps))
    (hdir : get_agency_code env.dir_resp = .ok (ad, codes))
    (hflat : flattenFutures ((agencyFutures apiKey env codes).map Prod.fst)
      = .error e) :
    tryBody apiKey env s0 =
      ({ db := dbWrite (dbWrite s0.db "state_crimes" (st.getD []))
                  "agency_info" ad,
         log := s0.log ++ [.gotStateCrimes, .gotAgencyInfo],
         printed := s0.printed ++ ps
                  ++ ((agencyFutures apiKey env codes).map Prod.snd).flatten,
         fanout := s0.fanout + (agencyFutures apiKey env codes).length },
        .error e) := by
  simp [tryBody, hst, hdir, hflat]

theorem get_state_crimes_ok_of_stateOk (apiKey : String) (env : Env)
    (h : stateFetchOk env) :
    ∃ st ps, get_state_crimes apiKey env.state_resp = (.ok st, ps) := by
  by_cases hs : env.state_resp.status_code = 200
  · rcases hd : env.state_resp.data? with _ | d
    · exact absurd ⟨hs, hd⟩ h
    · exact ⟨some d, [], by simp [get_state_crimes, hs, hd]⟩
  · refine ⟨none,
      ["Got response status code: " ++ toString env.state_resp.status_code
        ++ " for url: " ++ stateUrl apiKey], ?_⟩
    simp [get_state_crimes, hs]

theorem crimesMain_ok_facts (apiKey : String) (env : Env) (db0 : Database)
    (h : (crimesMain apiKey env db0).outcome = .ok ()) :
    (crimesMain apiKey env db0).db
      = dbWrite (dbWrite (dbWrite db0 "state_crimes"
          (fetchedStateRows apiKey env)) "agency_info" (fetchedDirRows env))
          "agency_crimes" (fetchedAgencyRows apiKey env) ∧
    (crimesMain apiKey env db0).log
      = [.logCreated, .connected, .gotStateCrimes, .gotAgencyInfo,
          .gotAgencyCrimes]
          ++ plot_scatter (fetchedStateRows apiKey env) "data_year"
              columns_to_plot
          ++ [.finished] ∧
    (crimesMain apiKey env db0).fanout = (fetchedCodes env).length ∧
    fanoutOk apiKey env := by
  rcases hq : get_state_crimes apiKey env.state_resp with ⟨r1, ps⟩
  rcases r1 with e | st
  · have htb := tryBody_eq_errState apiKey env
      ⟨db0, [.logCreated, .connected], [], 0⟩ e ps hq
    simp [crimesMain, htb] at h
  · rcases hdir : get_agency_code env.dir_resp with e | ⟨ad, codes⟩
    · have htb := tryBody_eq_errDir apiKey env
        ⟨db0, [.logCreated, .connected], [], 0⟩ st ps e hq hdir
      simp [crimesMain, htb] at h
    · rcases hflat : flattenFutures
          ((agencyFutures apiKey env codes).map Prod.fst) with e | rows
      · have htb := tryBody_eq_errFlat apiKey env
          ⟨db0, [.logCreated, .connected], [], 0⟩ st ps ad codes e hq hdir hflat
        simp [crimesMain, htb] at h
      · have htb := tryBody_eq_ok apiKey env
          ⟨db0, [.logCreated, .connected], [], 0⟩ st ps ad codes rows hq hdir hflat
        have hcodes : fetchedCodes env = codes := by
          simp [fetchedCodes, hdir]
        have hstrows : fetchedStateRows apiKey env = st.getD [] := by
          simp [fetchedStateRows, hq]
        have hdrows : fetchedDirRows env = ad := by
          simp [fetchedDirRows, hdir]
        have harows : fetchedAgencyRows apiKey env = rows := by
          simp [fetchedAgencyRows, hcodes, hflat]
        refine ⟨?_, ?_, ?_, ⟨rows, ?_⟩⟩
        · simp [crimesMain, htb, hstrows, hdrows, harows]
        · simp [crimesMain, htb, hstrows]
        · simp [crimesMain, htb, hcodes, agencyFutures]
        · rw [hcodes]
          exact hflat

theorem crimesMain_ok_of_stages (apiKey : String) (env : Env)
    (db0 : Database) (h1 : stateFetchOk env) (h2 : dirFetchOk env)
    (h3 : fanoutOk apiKey env) :
    (crimesMain apiKey env db0).outcome = .ok () := by
  obtain ⟨st, ps, hq⟩ := get_state_crimes_ok_of_stateOk apiKey env h1
  obtain ⟨⟨ad, codes⟩, hdir⟩ := h2
  obtain ⟨rows, hflat⟩ := h3
  have hcodes : fetchedCodes env = codes := by simp [fetchedCodes, hdir]
  rw [hcodes] at hflat
  have htb := tryBody_eq_ok apiKey env
    ⟨db0, [.logCreated, .connected], [], 0⟩ st ps ad codes rows hq hdir hflat
  simp [crimesMain, htb]

theorem crimesMain_error_facts (apiKey : String) (env : Env) (db0 : Database)
    (e : String) (h : (crimesMain apiKey env db0).outcome = .error e) :
    LogEntry.mainError e ∈ (crimesMain apiKey env db0).log ∧
    LogEntry.gotAgencyCrimes ∉ (crimesMain apiKey env db0).log ∧
    LogEntry.plotted ∉ (crimesMain apiKey env db0).log ∧
    (∀ m, LogEntry.plotError m ∉ (crimesMain apiKey env db0).log) ∧
    dbRead (crimesMain apiKey env db0).db "agency_crimes"
      = dbRead db0 "agency_crimes" := by
  rcases hq : get_state_crimes apiKey env.state_resp with ⟨r1, ps⟩
  rcases r1 with e0 | st
  · have htb := tryBody_eq_errState apiKey env
      ⟨db0, [.logCreated, .connected], [], 0⟩ e0 ps hq
    simp only [crimesMain, htb] at h ⊢
    simp at h
    subst h
    simp
  · rcases hdir : get_agency_code env.dir_resp with e0 | ⟨ad, codes⟩
    · have htb := tryBody_eq_errDir apiKey env
        ⟨db0, [.logCreated, .connected], [], 0⟩ st ps e0 hq hdir
      simp only [crimesMain, htb] at h ⊢
      simp at h
      subst h
      refine ⟨by simp, by simp, by simp, fun m => by simp, ?_⟩
      exact dbRead_dbWrite_ne db0 "state_crimes" "agency_crimes" _ (by decide)
    · rcases hflat : flattenFutures
          ((agencyFutures apiKey env codes).map Prod.fst) with e0 | rows
      · have htb := tryBody_eq_errFlat apiKey env
          ⟨db0, [.logCreated, .connected], [], 0⟩ st ps ad codes e0 hq hdir hflat
        simp only [crimesMain, htb] at h ⊢
        simp at h
        subst h
        refine ⟨by simp, by simp, by simp, fun m => by simp, ?_⟩
        rw [dbRead_dbWrite_ne _ "agency_info" "agency_crimes" _ (by decide)]
        exact dbRead_dbWrite_ne db0 "state_crimes" "agency_crimes" _ (by decide)
      · have htb := tryBody_eq_ok apiKey env
          ⟨db0, [.logCreated, .connected], [], 0⟩ st ps ad codes rows hq hdir hflat
        simp [crimesMain, htb] at h

theorem fetchedAgencyRows_length_eq_sum200 (apiKey : String) (env : Env)
    (rows : List Rec)
    (hflat : flattenFutures
        ((agencyFutures apiKey env (fetchedCodes env)).map Prod.fst)
      = .ok rows) :
    (fetchedAgencyRows apiKey env).length
      = sum200Lengths apiKey env (fetchedCodes env) := by
  have hrows : fetchedAgencyRows apiKey env = rows := by
    simp [fetchedAgencyRows, hflat]
  have hmap : (agencyFutures apiKey env (fetchedCodes env)).map Prod.fst
      = (fetchedCodes env).map
          (fun c => (get_agency_crimes apiKey c (env.agency_resp c)).1) := by
    simp [agencyFutures]
  rw [hmap] at hflat
  have hlen := flattenFutures_ok_length _ rows hflat
  have hmem := flattenFutures_ok_mem _ rows hflat
  have hall : ∀ c ∈ fetchedCodes env,
      ((env.agency_resp c).status_code == 200) = true := by
    intro c hc
    obtain ⟨xs, hxs⟩ := hmem _ (List.mem_map_of_mem _ hc)
    exact beq_iff_eq.mpr
      (get_agency_crimes_status_of_ok_some apiKey c (env.agency_resp c) xs hxs)
  have hfilter : (fetchedCodes env).filter
      (fun c => (env.agency_resp c).status_code == 200) = fetchedCodes env :=
    List.filter_eq_self.mpr hall
  rw [hrows, hlen, sum200Lengths, hfilter, List.map_map]
  rfl

theorem extractOris_ok_of_all (xs : List Rec)
    (h : ∀ r ∈ xs, (getKey? r "ori").isSome) :
    extractOris xs
      = .ok (xs.map (fun r => (getKey? r "ori").getD .jnull)) := by
  induction xs with
  | nil => simp [extractOris]
  | cons r rs ih =>
      have hr := h r (by simp)
      rcases ho : getKey? r "ori" with _ | v
      · rw [ho] at hr
        simp at hr
      · simp [extractOris, ho, ih (fun x hx => h x (by simp [hx]))]

theorem extractOris_error_of_missing (xs : List Rec)
    (h : ∃ r ∈ xs, getKey? r "ori" = none) :
    extractOris xs = .error "KeyError: ori" := by
  induction xs with
  | nil => simp at h
  | cons r rs ih =>
      rcases ho : getKey? r "ori" with _ | v
      · simp [extractOris, ho]
      · rcases h with ⟨x, hx, hxn⟩
        rcases List.mem_cons.mp hx with rfl | hx2
        · rw [ho] at hxn
          simp at hxn
        · simp [extractOris, ho, ih ⟨x, hx2, hxn⟩]

/-! ## Claim theorems -/

/-- C9: `connect_db` places the configured "host" value in the port position
of the connection URL it builds: the URL is exactly
`postgresql://` user `:` password `@localhost:` host `/` database, with the
host value standing where a port number belongs. -/
theorem C9_connect_db_host_in_port_position (c : DBConfig) :
    connect_db c
      = "postgresql://" ++ c.user ++ ":" ++ c.password ++ "@localhost:"
          ++ c.host ++ "/" ++ c.database := rfl

/-- C2: on every non-200 response, `get_agency_crimes` and `get_state_crimes`
emit a diagnostic line carrying the status code and the request URL, and
return Python `None` (an absent result) without raising. -/
theorem C2_non200_logs_status_and_url (apiKey : String) (c : JVal)
    (ra rs : ApiResponse) (ha : ra.status_code ≠ 200)
    (hs : rs.status_code ≠ 200) :
    get_agency_crimes apiKey c ra
      = (.ok none,
          ["Got response status code: " ++ toString ra.status_code
            ++ " for url:" ++ agencyUrl c apiKey]) ∧
    get_state_crimes apiKey rs
      = (.ok none,
          ["Got response status code: " ++ toString rs.status_code
            ++ " for url: " ++ stateUrl apiKey]) := by
  constructor
  · simp [get_agency_crimes, ha]
  · simp [get_state_crimes, hs]

/-- Witness for C2 at status 404 (agency) and 500 (state). -/
theorem C2_non200_logs_status_and_url_witness :
    get_agency_crimes "KEY" (.jstr "CO001") ⟨404, none⟩
      = (.ok none,
          ["Got response status code: " ++ toString (404 : Nat)
            ++ " for url:" ++ agencyUrl (.jstr "CO001") "KEY"]) ∧
    get_state_crimes "KEY" ⟨500, none⟩
      = (.ok none,
          ["Got response status code: " ++ toString (500 : Nat)
            ++ " for url: " ++ stateUrl "KEY"]) :=
  C2_non200_logs_status_and_url "KEY" (.jstr "CO001") ⟨404, none⟩ ⟨500, none⟩
    (by decide) (by decide)

/-- C3: on every 200-status response whose body decodes, every record in the
list `get_agency_crimes` returns carries an `'Agency'` field whose value is
the agency identifier passed to the call. -/
theorem C3_agency_identifier_injected (apiKey : String) (c : JVal)
    (resp : ApiResponse) (d : List Rec) (hs : resp.status_code = 200)
    (hd : resp.data? = some d) :
    ∃ out, (get_agency_crimes apiKey c resp).1 = .ok (some out) ∧
      ∀ r ∈ out, getKey? r "Agency" = some c := by
  refine ⟨d.map (fun r => setKey r "Agency" c), ?_, ?_⟩
  · simp [get_agency_crimes, hs, hd]
  · intro r hr
    rcases List.mem_map.mp hr with ⟨r0, _, rfl⟩
    exact getKey_setKey_self r0 "Agency" c

/-- Witness for C3: two records, one of which already has an `'Agency'`
field (which gets overwritten). -/
theorem C3_agency_identifier_injected_witness :
    ∃ out, (get_agency_crimes "KEY" (.jstr "CO001")
        ⟨200, some [[("Burglary", .jnum 3)],
                    [("Agency", .jstr "OLD"), ("Theft", .jnum 5)]]⟩).1
      = .ok (some out) ∧
      ∀ r ∈ out, getKey? r "Agency" = some (.jstr "CO001") :=
  C3_agency_identifier_injected "KEY" (.jstr "CO001")
    ⟨200, some [[("Burglary", .jnum 3)],
                [("Agency", .jstr "OLD"), ("Theft", .jnum 5)]]⟩
    [[("Burglary", .jnum 3)], [("Agency", .jstr "OLD"), ("Theft", .jnum 5)]]
    rfl rfl

/-- C10: `get_agency_code` never examines the response status; for a body
decoding to a JSON list it returns the pair (decoded list, `'ori'` values in
source order), and it raises whenever the body is not valid JSON or some
element lacks an `'ori'` key. -/
theorem C10_get_agency_code_no_status_check (resp : DirResponse) :
    (∀ s, get_agency_code { resp with status_code := s }
        = get_agency_code resp) ∧
    (resp.body? = none → get_agency_code resp = .error "JSONDecodeError") ∧
    (∀ xs, resp.body? = some xs →
      ((∀ r ∈ xs, (getKey? r "ori").isSome) →
        get_agency_code resp
          = .ok (xs, xs.map (fun r => (getKey? r "ori").getD .jnull))) ∧
      ((∃ r ∈ xs, getKey? r "ori" = none) →
        get_agency_code resp = .error "KeyError: ori")) := by
  refine ⟨fun s => rfl, fun hb => by simp [get_agency_code, hb], ?_⟩
  intro xs hxs
  constructor
  · intro hall
    simp [get_agency_code, hxs, extractOris_ok_of_all xs hall]
  · intro hmiss
    simp [get_agency_code, hxs, extractOris_error_of_missing xs hmiss]

/-- Witness for C10: a well-formed directory body, one lacking `'ori'`, and
a non-JSON body, each under a status that is ignored. -/
theorem C10_get_agency_code_no_status_check_witness :
    get_agency_code ⟨503, some [[("ori", .jstr "CO001")]]⟩
      = get_agency_code ⟨200, some [[("ori", .jstr "CO001")]]⟩ ∧
    get_agency_code ⟨200, some [[("ori", .jstr "CO001")]]⟩
      = .ok ([[("ori", .jstr "CO001")]],
          [[(("ori" : String), JVal.jstr "CO001")]].map
            (fun r => (getKey? r "ori").getD .jnull)) ∧
    get_agency_code ⟨200, some [[("name", .jstr "B")]]⟩
      = .error "KeyError: ori" ∧
    get_agency_code ⟨200, none⟩ = .error "JSONDecodeError" :=
  ⟨(C10_get_agency_code_no_status_check ⟨200, some [[("ori", .jstr "CO001")]]⟩).1 503,
   ((C10_get_agency_code_no_status_check
      ⟨200, some [[("ori", .jstr "CO001")]]⟩).2.2 _ rfl).1 (by decide),
   ((C10_get_agency_code_no_status_check
      ⟨200, some [[("name", .jstr "B")]]⟩).2.2 _ rfl).2 ⟨[("name", .jstr "B")], by simp, by decide⟩,
   (C10_get_agency_code_no_status_check ⟨200, none⟩).2.1 rfl⟩

/-- C1 (code bug): with directory `["CO001", "CO002"]`, one record for CO001
and a 404 for CO002, the claim (and the spec's silent partial-failure
policy) require exactly one flattened row tagged CO001 and no abort. The
code instead raises `TypeError` in `main`'s flatten step — the non-200 path
of `get_agency_crimes` returns Python `None` and the comprehension iterates
it — so the whole batch aborts and no `agency_crimes` table is written at
all. -/
theorem C1_non200_agency_aborts_batch :
    (crimesMain "KEY" C1env []).outcome
      = .error "TypeError: NoneType is not iterable" ∧
    dbRead (crimesMain "KEY" C1env []).db "agency_crimes" = none ∧
    LogEntry.mainError "TypeError: NoneType is not iterable"
      ∈ (crimesMain "KEY" C1env []).log := by
  decide

/-- C4: after the second of two consecutive successful runs, each of the
three destination tables holds exactly the rows produced by the second run's
fetches — whatever the first run (started from an arbitrary `db0`) left
behind is fully replaced, never merged or appended. -/
theorem C4_replace_semantics (apiKey : String) (env1 env2 : Env)
    (db0 : Database)
    (_hrun1 : (crimesMain apiKey env1 db0).outcome = .ok ())
    (h2 : (crimesMain apiKey env2 (crimesMain apiKey env1 db0).db).outcome
      = .ok ()) :
    dbRead (crimesMain apiKey env2 (crimesMain apiKey env1 db0).db).db
        "state_crimes" = some (fetchedStateRows apiKey env2) ∧
    dbRead (crimesMain apiKey env2 (crimesMain apiKey env1 db0).db).db
        "agency_info" = some (fetchedDirRows env2) ∧
    dbRead (crimesMain apiKey env2 (crimesMain apiKey env1 db0).db).db
        "agency_crimes" = some (fetchedAgencyRows apiKey env2) := by
  obtain ⟨hdb, -, -, -⟩ := crimesMain_ok_facts apiKey env2 _ h2
  rw [hdb]
  refine ⟨?_, ?_, ?_⟩
  · rw [dbRead_dbWrite_ne _ _ _ _ (by decide),
      dbRead_dbWrite_ne _ _ _ _ (by decide)]
    exact dbRead_dbWrite_self _ _ _
  · rw [dbRead_dbWrite_ne _ _ _ _ (by decide)]
    exact dbRead_dbWrite_self _ _ _
  · exact dbRead_dbWrite_self _ _ _

/-- Witness for C4: run 1 leaves two state rows, run 2 one; after run 2 the
state table holds exactly run 2's single row. -/
theorem C4_replace_semantics_witness :
    dbRead (crimesMain "KEY" C4envB (crimesMain "KEY" C4envA []).db).db
        "state_crimes" = some [[("data_year", .jnum 2002)]] ∧
    dbRead (crimesMain "KEY" C4envB (crimesMain "KEY" C4envA []).db).db
        "agency_info" = some [] ∧
    dbRead (crimesMain "KEY" C4envB (crimesMain "KEY" C4envA []).db).db
        "agency_crimes" = some [] :=
  C4_replace_semantics "KEY" C4envA C4envB [] (by decide) (by decide)

/-- C5: for every successful run, the `state_crimes` row count equals the
state fetch's record count, the `agency_info` row count equals the directory
fetch's record count, and the `agency_crimes` row count equals the sum of
per-agency result-list lengths over exactly the agencies whose fetch
returned HTTP 200. -/
theorem C5_row_counts (apiKey : String) (env : Env) (db0 : Database)
    (h : (crimesMain apiKey env db0).outcome = .ok ()) :
    (dbRead (crimesMain apiKey env db0).db "state_crimes").map List.length
      = some (fetchedStateRows apiKey env).length ∧
    (dbRead (crimesMain apiKey env db0).db "agency_info").map List.length
      = some (fetchedDirRows env).length ∧
    (dbRead (crimesMain apiKey env db0).db "agency_crimes").map List.length
      = some (sum200Lengths apiKey env (fetchedCodes env)) := by
  obtain ⟨hdb, -, -, hfan⟩ := crimesMain_ok_facts apiKey env db0 h
  obtain ⟨rows, hflat⟩ := hfan
  rw [hdb]
  refine ⟨?_, ?_, ?_⟩
  · rw [dbRead_dbWrite_ne _ _ _ _ (by decide),
      dbRead_dbWrite_ne _ _ _ _ (by decide), dbRead_dbWrite_self]
    rfl
  · rw [dbRead_dbWrite_ne _ _ _ _ (by decide), dbRead_dbWrite_self]
    rfl
  · rw [dbRead_dbWrite_self]
    rw [Option.map_some']
    rw [fetchedAgencyRows_length_eq_sum200 apiKey env rows hflat]

/-- Witness for C5: two agencies, both 200, with one and two records;
the agency-crimes row count is 3. -/
theorem C5_row_counts_witness :
    (dbRead (crimesMain "KEY" C5env []).db "state_crimes").map List.length
      = some 1 ∧
    (dbRead (crimesMain "KEY" C5env []).db "agency_info").map List.length
      = some 2 ∧
    (dbRead (crimesMain "KEY" C5env []).db "agency_crimes").map List.length
      = some 3 :=
  C5_row_counts "KEY" C5env [] (by decide)

/-- C6: a directory response decoding to zero agencies yields zero fan-out
calls and an empty `agency_crimes` table, and the run (whose state stage did
not raise) completes without error — the tabular load succeeds on an empty
record collection. -/
theorem C6_empty_directory (apiKey : String) (env : Env) (db0 : Database)
    (hdir : env.dir_resp.body? = some []) (hstate : stateFetchOk env) :
    (crimesMain apiKey env db0).fanout = 0 ∧
    (crimesMain apiKey env db0).outcome = .ok () ∧
    dbRead (crimesMain apiKey env db0).db "agency_crimes" = some [] := by
  have hgac : get_agency_code env.dir_resp = .ok ([], []) := by
    simp [get_agency_code, hdir, extractOris]
  have hcodes : fetchedCodes env = [] := by simp [fetchedCodes, hgac]
  have hdok : dirFetchOk env := ⟨([], []), hgac⟩
  have hfok : fanoutOk apiKey env :=
    ⟨[], by simp [hcodes, agencyFutures, flattenFutures]⟩
  have hok := crimesMain_ok_of_stages apiKey env db0 hstate hdok hfok
  obtain ⟨hdb, -, hfan, -⟩ := crimesMain_ok_facts apiKey env db0 hok
  have harows : fetchedAgencyRows apiKey env = [] := by
    simp [fetchedAgencyRows, hcodes, agencyFutures, flattenFutures]
  refine ⟨by rw [hfan, hcodes]; rfl, hok, ?_⟩
  rw [hdb, harows]
  exact dbRead_dbWrite_self _ _ _

/-- Witness for C6 at a concrete empty-directory environment. -/
theorem C6_empty_directory_witness :
    (crimesMain "KEY" C6env []).fanout = 0 ∧
    (crimesMain "KEY" C6env []).outcome = .ok () ∧
    dbRead (crimesMain "KEY" C6env []).db "agency_crimes" = some [] :=
  C6_empty_directory "KEY" C6env [] rfl (by simp [stateFetchOk, C6env])

/-- C7: whatever the run's environment, the engine is disposed and the
finishing line is the last log line; and whenever an exception escapes a
stage (the run's outcome is that re-raised error), its message is logged,
the later stages were skipped (no agency-crimes log line, no plot log line,
and the `agency_crimes` table is untouched from `db0`). -/
theorem C7_top_level_error_policy (apiKey : String) (env : Env)
    (db0 : Database) :
    (crimesMain apiKey env db0).disposed = true ∧
    (crimesMain apiKey env db0).log.getLast? = some .finished ∧
    (∀ e, (crimesMain apiKey env db0).outcome = .error e →
      LogEntry.mainError e ∈ (crimesMain apiKey env db0).log ∧
      LogEntry.gotAgencyCrimes ∉ (crimesMain apiKey env db0).log ∧
      LogEntry.plotted ∉ (crimesMain apiKey env db0).log ∧
      (∀ m, LogEntry.plotError m ∉ (crimesMain apiKey env db0).log) ∧
      dbRead (crimesMain apiKey env db0).db "agency_crimes"
        = dbRead db0 "agency_crimes") := by
  refine ⟨?_, ?_, fun e he => crimesMain_error_facts apiKey env db0 e he⟩
  · rcases h2 : (tryBody apiKey env
        ⟨db0, [.logCreated, .connected], [], 0⟩).2 with e | u
    · simp [crimesMain, h2]
    · simp [crimesMain, h2]
  · rcases h2 : (tryBody apiKey env
        ⟨db0, [.logCreated, .connected], [], 0⟩).2 with e | u
    · simp [crimesMain, h2, List.getLast?_append_cons]
    · simp [crimesMain, h2, List.getLast?_append_cons]

/-- Witness for C7: a run whose directory body is invalid JSON, started on
a store already holding an `agency_crimes` table. -/
theorem C7_top_level_error_policy_witness :
    (crimesMain "KEY" C7env C7db).disposed = true ∧
    (crimesMain "KEY" C7env C7db).log.getLast? = some .finished ∧
    LogEntry.mainError "JSONDecodeError" ∈ (crimesMain "KEY" C7env C7db).log ∧
    LogEntry.gotAgencyCrimes ∉ (crimesMain "KEY" C7env C7db).log ∧
    dbRead (crimesMain "KEY" C7env C7db).db "agency_crimes"
      = dbRead C7db "agency_crimes" := by
  have h := C7_top_level_error_policy "KEY" C7env C7db
  have h2 := h.2.2 "JSONDecodeError" (by decide)
  exact ⟨h.1, h.2.1, h2.1, h2.2.1, h2.2.2.2.2⟩

/-- C8: when the chart body fails (e.g. a requested series column missing
from the state table), `plot_scatter` returns normally with the failure
logged, the run still completes successfully, and the three tables persisted
before rendering hold exactly the fetched rows. -/
theorem C8_render_failure_contained (apiKey : String) (env : Env)
    (db0 : Database) (e : String) (h1 : stateFetchOk env)
    (h2 : dirFetchOk env) (h3 : fanoutOk apiKey env)
    (hplot : plotBody (fetchedStateRows apiKey env) "data_year"
      columns_to_plot = .error e) :
    plot_scatter (fetchedStateRows apiKey env) "data_year" columns_to_plot
      = [.plotError e] ∧
    (crimesMain apiKey env db0).outcome = .ok () ∧
    LogEntry.plotError e ∈ (crimesMain apiKey env db0).log ∧
    dbRead (crimesMain apiKey env db0).db "state_crimes"
      = some (fetchedStateRows apiKey env) ∧
    dbRead (crimesMain apiKey env db0).db "agency_info"
      = some (fetchedDirRows env) ∧
    dbRead (crimesMain apiKey env db0).db "agency_crimes"
      = some (fetchedAgencyRows apiKey env) := by
  have hps : plot_scatter (fetchedStateRows apiKey env) "data_year"
      columns_to_plot = [.plotError e] := by
    simp [plot_scatter, hplot]
  have hok := crimesMain_ok_of_stages apiKey env db0 h1 h2 h3
  obtain ⟨hdb, hlog, -, -⟩ := crimesMain_ok_facts apiKey env db0 hok
  refine ⟨hps, hok, ?_, ?_, ?_, ?_⟩
  · rw [hlog, hps]
    simp
  · rw [hdb, dbRead_dbWrite_ne _ _ _ _ (by decide),
      dbRead_dbWrite_ne _ _ _ _ (by decide)]
    exact dbRead_dbWrite_self _ _ _
  · rw [hdb, dbRead_dbWrite_ne _ _ _ _ (by decide)]
    exact dbRead_dbWrite_self _ _ _
  · rw [hdb]
    exact dbRead_dbWrite_self _ _ _

/-- Witness for C8: the state table has a `data_year` column but no `Rape`
column, so the renderer's body raises `KeyError: Rape`; the run still
succeeds and the tables hold the fetched rows. -/
theorem C8_render_failure_contained_witness :
    plot_scatter (fetchedStateRows "KEY" C8env) "data_year" columns_to_plot
      = [.plotError "KeyError: Rape"] ∧
    (crimesMain "KEY" C8env []).outcome = .ok () ∧
    LogEntry.plotError "KeyError: Rape" ∈ (crimesMain "KEY" C8env []).log ∧
    dbRead (crimesMain "KEY" C8env []).db "state_crimes"
      = some [[("data_year", .jnum 2000)]] ∧
    dbRead (crimesMain "KEY" C8env []).db "agency_info" = some [] ∧
    dbRead (crimesMain "KEY" C8env []).db "agency_crimes" = some [] :=
  C8_render_failure_contained "KEY" C8env [] "KeyError: Rape" (by simp [stateFetchOk, C8env])
    ⟨([], []), rfl⟩ ⟨[], rfl⟩ (by decide)
